import Mathlib

/-!
Verification of the stress-detector firmware (`src/stress_detector.ino`).

The sketch is embedded shallowly:

* C `int`/`long` values are modelled as `ℤ`, or as `ℕ` for counters and for
  the piezo quantities that are nonnegative in every reachable state;
  C integer division (truncation toward zero) is `Int.tdiv`, and plain `/`
  on `ℕ` where both operands are nonnegative.
* C `float` values are modelled as `ℚ`; the cast `(int)x` is `cTrunc`.
* `millis()` timestamps are `ℕ` (the code's `unsigned long`), with the
  wrap-safe subtraction modelled by truncated `ℕ` subtraction.
* The global mutable variables of each channel are gathered into a state
  structure, and each code block becomes a state-passing function taking the
  values it reads from other channels as arguments.
-/

namespace StressDetector

/-- C-style cast `(int)q` of a float value: truncation toward zero. -/
def cTrunc (q : ℚ) : ℤ := if 0 ≤ q then ⌊q⌋ else ⌈q⌉

/-- Arduino macro `constrain(x, lo, hi)`: `x < lo ? lo : (x > hi ? hi : x)`. -/
def constrain (x lo hi : ℤ) : ℤ := if x < lo then lo else if hi < x then hi else x

/-! ## Piezo channel

Globals `piezoBaseEnv`, `piezoSpikeTH`, `piezoWinStart`, `piezoCurMax`,
`piezoActiveSamples`, `piezoSpikeCount`, `piezoState` and the three debug
values stored by `piezoFinalizeWindowIfNeeded`.  All these ints are
nonnegative in every reachable state (`piezoBaseEnv` is floored at 1), so
they are modelled as `ℕ` and the C division in `ratioMax` is `ℕ` division. -/

/-- The `PiezoState` enumeration of the sketch. -/
inductive PiezoState where
  | PZ_NORMAL
  | PZ_MED
  | PZ_HIGH
  | PZ_MOVE
deriving DecidableEq

/-- State of the piezo channel (the `piezo*` globals). -/
structure PiezoChan where
  piezoBaseEnv : ℕ
  piezoSpikeTH : ℕ
  piezoWinStart : ℕ
  piezoCurMax : ℕ
  piezoActiveSamples : ℕ
  piezoSpikeCount : ℕ
  piezoState : PiezoState
  piezoLastRatioMax : ℕ
  piezoLastActiveMs : ℕ
  piezoLastCurMax : ℕ
deriving DecidableEq

/-- `PIEZO_SAMPLE_MS` (10 ms sampling period). -/
def PIEZO_SAMPLE_MS : ℕ := 10

/-- `PIEZO_WIN_MS` (5 s classification window). -/
def PIEZO_WIN_MS : ℕ := 5000

/-- `piezoFinalizeWindowIfNeeded()`: if the 5-second window has elapsed,
compute `ratioMax` and `activeMs`, classify the window with the threshold
chain of the sketch, store the debug values, and reset the accumulators. -/
def piezoFinalizeWindowIfNeeded (s : PiezoChan) (now : ℕ) : PiezoChan :=
  if now - s.piezoWinStart < PIEZO_WIN_MS then s
  else
    let ratioMax := s.piezoCurMax * 100 / s.piezoBaseEnv
    let activeMs := s.piezoActiveSamples * PIEZO_SAMPLE_MS
    let st :=
      if 8 ≤ s.piezoSpikeCount then PiezoState.PZ_MOVE
      else if (25 ≤ s.piezoCurMax ∧ 300 ≤ ratioMax) ∨
              (1500 ≤ activeMs ∧ 200 ≤ ratioMax) then PiezoState.PZ_HIGH
      else if (15 ≤ s.piezoCurMax ∧ 200 ≤ ratioMax) ∨ 800 ≤ activeMs then PiezoState.PZ_MED
      else PiezoState.PZ_NORMAL
    { s with piezoState := st,
             piezoLastRatioMax := ratioMax,
             piezoLastActiveMs := activeMs,
             piezoLastCurMax := s.piezoCurMax,
             piezoCurMax := 0,
             piezoActiveSamples := 0,
             piezoSpikeCount := 0,
             piezoWinStart := now }

/-- The window classification as the specification words it: priority order
MOVEMENT, then HIGH, then MEDIUM, else NORMAL, with
`ratioMax = 100×windowMax/baselineEnvelope` and
`activeMs = activeSampleCount×10`.  Stated separately from
`piezoFinalizeWindowIfNeeded` so the code can be checked against it. -/
def piezoClassifySpec (windowMax activeSampleCount spikeCount baselineEnvelope : ℕ) :
    PiezoState :=
  let ratioMax := 100 * windowMax / baselineEnvelope
  let activeMs := activeSampleCount * 10
  if 8 ≤ spikeCount then PiezoState.PZ_MOVE
  else if (25 ≤ windowMax ∧ 300 ≤ ratioMax) ∨
          (1500 ≤ activeMs ∧ 200 ≤ ratioMax) then PiezoState.PZ_HIGH
  else if (15 ≤ windowMax ∧ 200 ≤ ratioMax) ∨ 800 ≤ activeMs then PiezoState.PZ_MED
  else PiezoState.PZ_NORMAL

/-- `piezoScoreContribution()`: 0 for MOVEMENT, else a base of 15 (MEDIUM)
or 30 (HIGH), plus `min(piezoLastCurMax,60)/3`, capped at 40. -/
def piezoScoreContribution (st : PiezoState) (piezoLastCurMax : ℕ) : ℕ :=
  if st = PiezoState.PZ_MOVE then 0
  else
    let score0 : ℕ := 0
    let score1 := if st = PiezoState.PZ_MED then score0 + 15
                  else if st = PiezoState.PZ_HIGH then score0 + 30
                  else score0
    let extra0 := piezoLastCurMax
    let extra1 := if 60 < extra0 then 60 else extra0
    let extra2 := extra1 / 3
    let score2 := score1 + extra2
    if 40 < score2 then 40 else score2

/-- Base contribution per piezo state as the specification words it
(15 for MEDIUM, 30 for HIGH, nothing otherwise). -/
def piezoBaseScoreSpec : PiezoState → ℕ
  | PiezoState.PZ_MED => 15
  | PiezoState.PZ_HIGH => 30
  | _ => 0

/-- C3: every finalized 5-second window is classified exactly as the
specification's priority chain over `windowMax`, `activeMs`, `ratioMax`
and `spikeCount` prescribes, and the three window accumulators are reset
to zero by the finalization. -/
theorem piezo_finalize_classifies (s : PiezoChan) (now : ℕ)
    (_henv : 1 ≤ s.piezoBaseEnv) (hwin : 5000 ≤ now - s.piezoWinStart) :
    (piezoFinalizeWindowIfNeeded s now).piezoState =
      piezoClassifySpec s.piezoCurMax s.piezoActiveSamples s.piezoSpikeCount s.piezoBaseEnv ∧
    (piezoFinalizeWindowIfNeeded s now).piezoCurMax = 0 ∧
    (piezoFinalizeWindowIfNeeded s now).piezoActiveSamples = 0 ∧
    (piezoFinalizeWindowIfNeeded s now).piezoSpikeCount = 0 := by
  unfold piezoFinalizeWindowIfNeeded piezoClassifySpec PIEZO_WIN_MS PIEZO_SAMPLE_MS
  rw [if_neg (by omega), Nat.mul_comm 100 s.piezoCurMax]
  exact ⟨rfl, rfl, rfl, rfl⟩

/-- C3 witness: a window with 8 spikes but `windowMax = 5` is finalized as
MOVEMENT, and its accumulators are reset. -/
theorem piezo_finalize_classifies_witness :
    (piezoFinalizeWindowIfNeeded
        ⟨1, 20, 0, 5, 0, 8, PiezoState.PZ_NORMAL, 0, 0, 0⟩ 5000).piezoState =
      piezoClassifySpec 5 0 8 1 ∧
    piezoClassifySpec 5 0 8 1 = PiezoState.PZ_MOVE ∧
    (piezoFinalizeWindowIfNeeded
        ⟨1, 20, 0, 5, 0, 8, PiezoState.PZ_NORMAL, 0, 0, 0⟩ 5000).piezoCurMax = 0 := by
  have h := piezo_finalize_classifies
      ⟨1, 20, 0, 5, 0, 8, PiezoState.PZ_NORMAL, 0, 0, 0⟩ 5000 (by decide) (by decide)
  exact ⟨h.1, by decide, h.2.1⟩

/-- C4: the piezo contribution is 0 for a MOVEMENT window — even with
`windowMax = 100` — and for every other state it is the spec base (15 for
MEDIUM, 30 for HIGH) plus `min(windowMax,60)/3`, capped at 40. -/
theorem piezo_contribution_spec (st : PiezoState) (cm : ℕ) :
    piezoScoreContribution PiezoState.PZ_MOVE 100 = 0 ∧
    (st = PiezoState.PZ_MOVE → piezoScoreContribution st cm = 0) ∧
    (st ≠ PiezoState.PZ_MOVE →
      piezoScoreContribution st cm = min (piezoBaseScoreSpec st + min cm 60 / 3) 40) := by
  refine ⟨by decide, ?_, ?_⟩ <;>
    cases st <;> simp [piezoScoreContribution, piezoBaseScoreSpec, Nat.min_def] <;>
    split_ifs <;> omega

/-- C4 witness: a MEDIUM window with `windowMax = 30` contributes
`min(15 + 10, 40) = 25`. -/
theorem piezo_contribution_spec_witness :
    piezoScoreContribution PiezoState.PZ_MED 30 = min (piezoBaseScoreSpec PiezoState.PZ_MED + min 30 60 / 3) 40 ∧
    min (piezoBaseScoreSpec PiezoState.PZ_MED + min 30 60 / 3) 40 = 25 := by
  exact ⟨(piezo_contribution_spec PiezoState.PZ_MED 30).2.2 (by decide), by decide⟩

/-- C10: a window classified NORMAL with finalized `windowMax ≥ 3` still
contributes `min(windowMax,60)/3`, which is positive and at most 20. -/
theorem piezo_normal_contribution (cm : ℕ) (h : 3 ≤ cm) :
    piezoScoreContribution PiezoState.PZ_NORMAL cm = min cm 60 / 3 ∧
    0 < piezoScoreContribution PiezoState.PZ_NORMAL cm ∧
    piezoScoreContribution PiezoState.PZ_NORMAL cm ≤ 20 := by
  simp [piezoScoreContribution, Nat.min_def]
  split_ifs <;> omega

/-- C10 witness: `windowMax = 3` in a NORMAL window contributes 1. -/
theorem piezo_normal_contribution_witness :
    3 ≤ 3 ∧ piezoScoreContribution PiezoState.PZ_NORMAL 3 = min 3 60 / 3 ∧
    piezoScoreContribution PiezoState.PZ_NORMAL 3 = 1 := by
  exact ⟨by decide, (piezo_normal_contribution 3 (by decide)).1, by decide⟩

/-! ## GSR channel

Globals `lastGsrSample`, `gsrCalibrating`, `gsrCalDone`, `gsrCalStart`,
`gsrCalAcc`, `gsrCalCnt`, the float filters `gsrBase`, `gsrFast`,
`gsrScoreSmooth` (modelled as `ℚ`), and the int debug values.  The raw
sample delivered by `gsrReadAvg()` is an argument. -/

/-- State of the GSR channel (the `gsr*` globals). -/
structure GsrChan where
  lastGsrSample : ℕ
  gsrCalibrating : Bool
  gsrCalDone : Bool
  gsrCalStart : ℕ
  gsrCalAcc : ℤ
  gsrCalCnt : ℕ
  gsrBase : ℚ
  gsrFast : ℚ
  gsrScoreSmooth : ℚ
  gsrLastRaw : ℤ
  gsrLastPhasic : ℤ
  gsrLastScore : ℤ
deriving DecidableEq

/-- `GSR_SAMPLE_MS` (120 ms sampling period). -/
def GSR_SAMPLE_MS : ℕ := 120

/-- `GSR_CAL_MS` (60 s calibration run). -/
def GSR_CAL_MS : ℕ := 60000

/-- `GSR_PHASIC_CLAMP` (phasic range mapped onto 0..100). -/
def GSR_PHASIC_CLAMP : ℤ := 40

/-- `gsrUpdate()`: rate-gated sampling; during calibration accumulate the
raw mean and, once 60 s have passed, set `gsrBase` and `gsrFast` to the
accumulated mean, mark calibration done and zero `gsrScoreSmooth`; after
calibration run the dual-rate EMA filters and the smoothed score. -/
def gsrUpdate (s : GsrChan) (now : ℕ) (raw : ℤ) : GsrChan :=
  if now - s.lastGsrSample < GSR_SAMPLE_MS then s
  else
    let s := { s with lastGsrSample := now, gsrLastRaw := raw }
    if !s.gsrCalibrating && !s.gsrCalDone then s
    else if s.gsrCalibrating then
      let acc := s.gsrCalAcc + raw
      let cnt := s.gsrCalCnt + 1
      if GSR_CAL_MS ≤ now - s.gsrCalStart then
        let b : ℚ := if 0 < cnt then (acc : ℚ) / (cnt : ℚ) else (raw : ℚ)
        { s with gsrCalAcc := acc, gsrCalCnt := cnt,
                 gsrBase := b, gsrFast := b,
                 gsrCalibrating := false, gsrCalDone := true,
                 gsrScoreSmooth := 0 }
      else { s with gsrCalAcc := acc, gsrCalCnt := cnt }
    else
      let base := (998 / 1000 : ℚ) * s.gsrBase + (2 / 1000 : ℚ) * (raw : ℚ)
      let fast := (85 / 100 : ℚ) * s.gsrFast + (15 / 100 : ℚ) * (raw : ℚ)
      let phasic := cTrunc fast - cTrunc base
      let p0 := phasic
      let p1 := if p0 < 0 then 0 else p0
      let p2 := if GSR_PHASIC_CLAMP < p1 then GSR_PHASIC_CLAMP else p1
      let target : ℚ := ((p2 : ℚ) * 100) / (GSR_PHASIC_CLAMP : ℚ)
      let smooth := (95 / 100 : ℚ) * s.gsrScoreSmooth + (5 / 100 : ℚ) * target
      let sc0 := cTrunc smooth
      let sc1 := if sc0 < 0 then 0 else sc0
      let sc2 := if 100 < sc1 then 100 else sc1
      { s with gsrBase := base, gsrFast := fast,
               gsrLastPhasic := phasic, gsrScoreSmooth := smooth,
               gsrLastScore := sc2 }

/-- `gsrScoreContribution()`: 0 before calibration is done, else
`(gsrLastScore * 30) / 100` clamped to [0,30] (the intermediate `pct`
of the sketch is computed but never used afterwards). -/
def gsrScoreContribution (gsrCalDone : Bool) (gsrLastPhasic gsrLastScore : ℤ) : ℤ :=
  if !gsrCalDone then 0
  else
    let p0 := gsrLastPhasic
    let p1 := if p0 < 0 then 0 else p0
    let _p2 := if GSR_PHASIC_CLAMP < p1 then GSR_PHASIC_CLAMP else p1
    let s := gsrLastScore
    let contrib0 := Int.tdiv (s * 30) 100
    let contrib1 := if contrib0 < 0 then 0 else contrib0
    let contrib2 := if 30 < contrib1 then 30 else contrib1
    contrib2

/-- C7: the GSR contribution is 0 while calibration is not done, and once
it is done it equals `smoothedScore × 30/100` (C integer division) clamped
to [0,30]. -/
theorem gsr_contribution_spec (d : Bool) (ph sc : ℤ) :
    (d = false → gsrScoreContribution d ph sc = 0) ∧
    (d = true →
      gsrScoreContribution d ph sc = min (max (Int.tdiv (sc * 30) 100) 0) 30) := by
  constructor
  · intro hd; simp [gsrScoreContribution, hd]
  · intro hd
    simp only [gsrScoreContribution, hd, Bool.not_true, Bool.false_eq_true, if_false]
    generalize Int.tdiv (sc * 30) 100 = c
    split_ifs <;> omega

/-- C7 witness: with calibration done and `smoothedScore = 95`, the
contribution is `(95×30)/100 = 28`; with calibration not done it is 0. -/
theorem gsr_contribution_spec_witness :
    gsrScoreContribution true 0 95 = min (max (Int.tdiv (95 * 30) 100) 0) 30 ∧
    min (max (Int.tdiv ((95 : ℤ) * 30) 100) 0) 30 = 28 ∧
    gsrScoreContribution false 0 95 = 0 := by
  exact ⟨(gsr_contribution_spec true 0 95).2 rfl, by decide,
         (gsr_contribution_spec false 0 95).1 rfl⟩

/-- A reachable GSR state in mid-calibration: calibration started at time 0
with empty accumulator, all filters still zero. -/
def gsrCalExample : GsrChan :=
  { lastGsrSample := 0, gsrCalibrating := true, gsrCalDone := false,
    gsrCalStart := 0, gsrCalAcc := 0, gsrCalCnt := 0,
    gsrBase := 0, gsrFast := 0, gsrScoreSmooth := 0,
    gsrLastRaw := 0, gsrLastPhasic := 0, gsrLastScore := 0 }

/-- C6 counterexample: the update at `now = 60000` with raw sample 100
completes calibration and sets `gsrBase = gsrFast = 100`, but
`gsrScoreSmooth` is reset to 0, so the smoothed score is NOT equal to the
tonic baseline / phasic tracker immediately after calibration. -/
theorem gsr_alignment_counterexample :
    (gsrUpdate gsrCalExample 60000 100).gsrCalDone = true ∧
    (gsrUpdate gsrCalExample 60000 100).gsrBase = 100 ∧
    (gsrUpdate gsrCalExample 60000 100).gsrFast = 100 ∧
    ¬ ((gsrUpdate gsrCalExample 60000 100).gsrScoreSmooth =
        (gsrUpdate gsrCalExample 60000 100).gsrBase) := by
  norm_num [gsrUpdate, gsrCalExample, GSR_SAMPLE_MS, GSR_CAL_MS]

/-- C6 (amended): on the update step that completes GSR calibration, the
tonic baseline `gsrBase` and the fast tracker `gsrFast` are both set to the
mean of the raw samples accumulated during the 60-second calibration (so
they are aligned), while `gsrScoreSmooth` is reset to 0. -/
theorem gsr_calibration_alignment (s : GsrChan) (now : ℕ) (raw : ℤ)
    (hgate : GSR_SAMPLE_MS ≤ now - s.lastGsrSample)
    (hcal : s.gsrCalibrating = true)
    (hend : GSR_CAL_MS ≤ now - s.gsrCalStart) :
    (gsrUpdate s now raw).gsrCalDone = true ∧
    (gsrUpdate s now raw).gsrCalibrating = false ∧
    (gsrUpdate s now raw).gsrBase = (gsrUpdate s now raw).gsrFast ∧
    (gsrUpdate s now raw).gsrBase =
      ((s.gsrCalAcc + raw : ℤ) : ℚ) / ((s.gsrCalCnt + 1 : ℕ) : ℚ) ∧
    (gsrUpdate s now raw).gsrScoreSmooth = 0 := by
  unfold gsrUpdate
  rw [if_neg (by omega)]
  simp only [hcal, Bool.not_true, Bool.false_and, Bool.false_eq_true, if_false, if_true]
  rw [if_pos hend, if_pos (Nat.succ_pos s.gsrCalCnt)]
  exact ⟨rfl, rfl, rfl, rfl, rfl⟩

/-- C6 amended-theorem witness: the concrete completion step of
`gsr_alignment_counterexample`, with its hypotheses discharged. -/
theorem gsr_calibration_alignment_witness :
    (gsrUpdate gsrCalExample 60000 100).gsrCalDone = true ∧
    (gsrUpdate gsrCalExample 60000 100).gsrBase = (gsrUpdate gsrCalExample 60000 100).gsrFast ∧
    (gsrUpdate gsrCalExample 60000 100).gsrScoreSmooth = 0 := by
  have h := gsr_calibration_alignment gsrCalExample 60000 100 (by decide) rfl (by decide)
  exact ⟨h.1, h.2.2.1, h.2.2.2.2⟩

/-! ## Pulse channel

Globals `lastBeat`, `BPM`, `bpmBuffer[5]`, `bpmIndex`, `bpmFilled`.  The
BPM section of `loop()` runs only when `fingerDetected && checkForBeat(...)`
holds; that combined boolean is an argument of `pulseTick`. -/

/-- State of the pulse channel (`lastBeat`, `BPM`, `bpmBuffer`, `bpmIndex`,
`bpmFilled`). -/
structure PulseChan where
  lastBeat : ℤ
  BPM : ℚ
  bpmBuffer : List ℚ
  bpmIndex : ℕ
  bpmFilled : Bool
deriving DecidableEq

/-- The body of the `if (fingerDetected && checkForBeat(irValue))` block of
`loop()`: record the beat time, and if the inter-beat delta is positive and
the implied BPM is within [45,120], push it into the 5-slot ring buffer. -/
def pulseBeatUpdate (s : PulseChan) (now : ℤ) : PulseChan :=
  let delta := now - s.lastBeat
  let s1 := { s with lastBeat := now }
  if 0 < delta then
    let newBPM : ℚ := 60000 / (delta : ℚ)
    if 45 ≤ newBPM ∧ newBPM ≤ 120 then
      let buf := s1.bpmBuffer.set s1.bpmIndex newBPM
      let i1 := s1.bpmIndex + 1
      if 5 ≤ i1 then
        { s1 with BPM := newBPM, bpmBuffer := buf, bpmIndex := 0, bpmFilled := true }
      else
        { s1 with BPM := newBPM, bpmBuffer := buf, bpmIndex := i1 }
    else s1
  else s1

/-- One tick of the BPM section of `loop()`: `beatEdge` is
`fingerDetected && checkForBeat(irValue)`. -/
def pulseTick (s : PulseChan) (beatEdge : Bool) (now : ℤ) : PulseChan :=
  if beatEdge then pulseBeatUpdate s now else s

/-- The claim's rejection condition for a beat edge: the inter-beat delta
is ≤ 0, or the implied BPM `60000/delta` lies outside [45,120]. -/
def pulseRejects (s : PulseChan) (now : ℤ) : Prop :=
  now - s.lastBeat ≤ 0 ∨
    ¬ (45 ≤ 60000 / ((now - s.lastBeat : ℤ) : ℚ) ∧
       60000 / ((now - s.lastBeat : ℤ) : ℚ) ≤ 120)

/-- C8: a beat edge whose delta is ≤ 0 or whose implied BPM is outside
[45,120] leaves the 5-slot ring buffer, its index and its fill flag
unchanged. -/
theorem pulse_reject_preserves_buffer (s : PulseChan) (now : ℤ)
    (h : pulseRejects s now) :
    (pulseBeatUpdate s now).bpmBuffer = s.bpmBuffer ∧
    (pulseBeatUpdate s now).bpmIndex = s.bpmIndex ∧
    (pulseBeatUpdate s now).bpmFilled = s.bpmFilled := by
  unfold pulseBeatUpdate
  rcases h with h | h
  · rw [if_neg (by omega)]
    exact ⟨rfl, rfl, rfl⟩
  · by_cases hd : 0 < now - s.lastBeat
    · rw [if_pos hd, if_neg h]
      exact ⟨rfl, rfl, rfl⟩
    · rw [if_neg hd]
      exact ⟨rfl, rfl, rfl⟩

/-- An idle pulse state: no beat seen yet, empty average history. -/
def pulseExample : PulseChan :=
  { lastBeat := 0, BPM := 0, bpmBuffer := [0, 0, 0, 0, 0], bpmIndex := 0,
    bpmFilled := false }

/-- C8 witness: a beat edge at `now = 200` implies BPM `60000/200 = 300`,
which is rejected, and the buffer, index and fill flag are untouched. -/
theorem pulse_reject_preserves_buffer_witness :
    (pulseBeatUpdate pulseExample 200).bpmBuffer = pulseExample.bpmBuffer ∧
    (pulseBeatUpdate pulseExample 200).bpmIndex = pulseExample.bpmIndex ∧
    (pulseBeatUpdate pulseExample 200).bpmFilled = pulseExample.bpmFilled := by
  exact pulse_reject_preserves_buffer pulseExample 200
    (Or.inr (by norm_num [pulseExample]))

/-- C9 counterexample: the same rejected beat edge (implied BPM 300, outside
[45,120]) still overwrites `lastBeat`: it changes from 0 to 200, so not
every `PulseState` field is left unchanged on an invalid beat edge. -/
theorem pulse_lastBeat_counterexample :
    pulseRejects pulseExample 200 ∧
    pulseExample.lastBeat = 0 ∧
    (pulseBeatUpdate pulseExample 200).lastBeat = 200 := by
  refine ⟨Or.inr (by norm_num [pulseExample]), rfl, ?_⟩
  norm_num [pulseBeatUpdate, pulseExample]

/-- C9 (amended): on a tick without a beat edge the pulse state is entirely
unchanged; on a beat edge `lastBeat` is always set to the current time,
valid or not, while `BPM`, the ring buffer, its index and the fill flag are
mutated only when the implied BPM lies within [45,120]. -/
theorem pulse_frame_conditions (s : PulseChan) (beat : Bool) (now : ℤ) :
    (beat = false → pulseTick s beat now = s) ∧
    (beat = true → (pulseTick s beat now).lastBeat = now) ∧
    (beat = true → pulseRejects s now →
      (pulseTick s beat now).BPM = s.BPM ∧
      (pulseTick s beat now).bpmBuffer = s.bpmBuffer ∧
      (pulseTick s beat now).bpmIndex = s.bpmIndex ∧
      (pulseTick s beat now).bpmFilled = s.bpmFilled) := by
  refine ⟨fun hb => by simp [pulseTick, hb], fun hb => ?_, fun hb hr => ?_⟩
  · simp only [pulseTick, hb, if_true]
    unfold pulseBeatUpdate
    by_cases hd : 0 < now - s.lastBeat
    · rw [if_pos hd]
      by_cases hv : 45 ≤ 60000 / ((now - s.lastBeat : ℤ) : ℚ) ∧
          60000 / ((now - s.lastBeat : ℤ) : ℚ) ≤ 120
      · rw [if_pos hv]
        by_cases hi : 5 ≤ s.bpmIndex + 1
        · rw [if_pos hi]
        · rw [if_neg hi]
      · rw [if_neg hv]
    · rw [if_neg hd]
  · simp only [pulseTick, hb, if_true]
    unfold pulseBeatUpdate
    rcases hr with h | h
    · rw [if_neg (by omega)]
      exact ⟨rfl, rfl, rfl, rfl⟩
    · by_cases hd : 0 < now - s.lastBeat
      · rw [if_pos hd, if_neg h]
        exact ⟨rfl, rfl, rfl, rfl⟩
      · rw [if_neg hd]
        exact ⟨rfl, rfl, rfl, rfl⟩

/-- C9 amended-theorem witness: on the invalid beat edge at `now = 200`,
`lastBeat` becomes 200 while the other four fields keep their values. -/
theorem pulse_frame_conditions_witness :
    (pulseTick pulseExample true 200).lastBeat = 200 ∧
    (pulseTick pulseExample true 200).BPM = pulseExample.BPM ∧
    (pulseTick pulseExample true 200).bpmBuffer = pulseExample.bpmBuffer ∧
    (pulseTick pulseExample true 200).bpmIndex = pulseExample.bpmIndex ∧
    (pulseTick pulseExample true 200).bpmFilled = pulseExample.bpmFilled := by
  have h := pulse_frame_conditions pulseExample true 200
  have hr : pulseRejects pulseExample 200 := Or.inr (by norm_num [pulseExample])
  exact ⟨h.2.1 rfl, (h.2.2 rfl hr).1, (h.2.2 rfl hr).2.1,
         (h.2.2 rfl hr).2.2.1, (h.2.2 rfl hr).2.2.2⟩

/-! ## Baseline calibrator

Globals `bpmBaseline`, `tempBaseline`, `baselineCount`, `baselineDone`, and
the piezo baseline accumulators `piezoBaseSum`, `piezoBaseN`, with the
finalized `piezoBaseEnv` and `piezoSpikeTH`.  Each `loop()` iteration runs
the `if (!baselineDone && fingerDetected && bpmAvg > 0)` block with the
current `fingerDetected`, `bpmAvg`, `tempC` and `piezoEnvelope` values,
which form the per-tick input.  (On completion the block also resets the
piezo window and calls `gsrStartCalibration()`; those effects live in the
other channels' states.) -/

/-- State of the baseline calibrator. -/
structure BaselineCal where
  bpmBaseline : ℚ
  tempBaseline : ℚ
  baselineCount : ℕ
  baselineDone : Bool
  piezoBaseSum : ℤ
  piezoBaseN : ℕ
  piezoBaseEnv : ℤ
  piezoSpikeTH : ℤ
deriving DecidableEq

/-- Values read by the baseline block on one `loop()` iteration. -/
structure BaselineInput where
  fingerDetected : Bool
  bpmAvg : ℚ
  tempC : ℚ
  piezoEnvelope : ℤ
deriving DecidableEq

/-- `baselineSamples` (30 qualifying ticks). -/
def baselineSamples : ℕ := 30

/-- The baseline block of `loop()`: accumulate while not done, the finger
is on the sensor and the pulse average is positive; on the 30th qualifying
tick divide the accumulators into baselines, finalize the piezo baseline
envelope (floored at 1) and the spike threshold (floored at 20), and set
`baselineDone`. -/
def baselineTick (s : BaselineCal) (i : BaselineInput) : BaselineCal :=
  if s.baselineDone = false ∧ i.fingerDetected = true ∧ 0 < i.bpmAvg then
    let s1 := { s with bpmBaseline := s.bpmBaseline + i.bpmAvg,
                       tempBaseline := s.tempBaseline + i.tempC,
                       baselineCount := s.baselineCount + 1,
                       piezoBaseSum := s.piezoBaseSum + i.piezoEnvelope,
                       piezoBaseN := s.piezoBaseN + 1 }
    if baselineSamples ≤ s1.baselineCount then
      let env0 := if 0 < s1.piezoBaseN then Int.tdiv s1.piezoBaseSum (s1.piezoBaseN : ℤ) else 1
      let env := if env0 < 1 then 1 else env0
      let th0 := env * 10
      let th := if th0 < 20 then 20 else th0
      { s1 with bpmBaseline := s1.bpmBaseline / (baselineSamples : ℚ),
                tempBaseline := s1.tempBaseline / (baselineSamples : ℚ),
                baselineDone := true,
                piezoBaseEnv := env,
                piezoSpikeTH := th }
    else s1
  else s

/-- Running the baseline block over a list of per-tick inputs. -/
def baselineRun (s : BaselineCal) (l : List BaselineInput) : BaselineCal :=
  l.foldl baselineTick s

/-- A tick qualifies for baseline accumulation when the finger is detected
and the pulse average is positive. -/
def baselineQualifies (i : BaselineInput) : Bool :=
  i.fingerDetected && decide (0 < i.bpmAvg)

/-- Number of qualifying ticks in an input trace. -/
def countQualifying (l : List BaselineInput) : ℕ :=
  (l.filter baselineQualifies).length

/-- Initial values of the baseline globals at power-on. -/
def baselineStart : BaselineCal :=
  { bpmBaseline := 0, tempBaseline := 0, baselineCount := 0,
    baselineDone := false, piezoBaseSum := 0, piezoBaseN := 0,
    piezoBaseEnv := 1, piezoSpikeTH := 80 }

lemma baselineTick_of_done (s : BaselineCal) (i : BaselineInput)
    (h : s.baselineDone = true) : baselineTick s i = s := by
  simp [baselineTick, h]

lemma baselineRun_of_done (l : List BaselineInput) (s : BaselineCal)
    (h : s.baselineDone = true) : baselineRun s l = s := by
  induction l with
  | nil => rfl
  | cons i t ih =>
      show baselineRun (baselineTick s i) t = s
      rw [baselineTick_of_done s i h, ih]

lemma countQualifying_cons (i : BaselineInput) (t : List BaselineInput) :
    countQualifying (i :: t) =
      (if baselineQualifies i then 1 else 0) + countQualifying t := by
  simp only [countQualifying, List.filter_cons]
  split_ifs <;> simp [Nat.add_comm]

lemma baselineRun_progress (l : List BaselineInput) :
    ∀ s : BaselineCal, s.baselineDone = false → s.baselineCount < 30 →
      (baselineRun s l).baselineDone = decide (30 ≤ s.baselineCount + countQualifying l) ∧
      (baselineRun s l).baselineCount = min 30 (s.baselineCount + countQualifying l) := by
  induction l with
  | nil =>
      intro s hdone hcnt
      constructor
      · rw [show baselineRun s [] = s from rfl, hdone, countQualifying]
        simp only [List.filter_nil, List.length_nil, Nat.add_zero]
        exact (decide_eq_false (by omega)).symm
      · rw [show baselineRun s [] = s from rfl, countQualifying]
        simp only [List.filter_nil, List.length_nil, Nat.add_zero]
        omega
  | cons i t ih =>
      intro s hdone hcnt
      have hrun : baselineRun s (i :: t) = baselineRun (baselineTick s i) t := rfl
      by_cases hq : baselineQualifies i = true
      · have hcond : s.baselineDone = false ∧ i.fingerDetected = true ∧ 0 < i.bpmAvg := by
          refine ⟨hdone, ?_, ?_⟩
          · exact (Bool.and_eq_true _ _ ▸ hq).1
          · have := (Bool.and_eq_true _ _ ▸ hq).2
            exact of_decide_eq_true this
        by_cases h30 : 30 ≤ s.baselineCount + 1
        · -- the 30th qualifying tick: calibration finalizes
          obtain ⟨ht1, ht2⟩ : (baselineTick s i).baselineDone = true ∧
              (baselineTick s i).baselineCount = s.baselineCount + 1 := by
            rw [baselineTick, if_pos hcond, if_pos (by simpa [baselineSamples] using h30)]
            exact ⟨rfl, rfl⟩
          rw [hrun, baselineRun_of_done t _ ht1, countQualifying_cons, if_pos hq,
              ht1, ht2]
          constructor
          · exact (decide_eq_true (by omega)).symm
          · omega
        · -- still accumulating
          obtain ⟨ht1, ht2⟩ : (baselineTick s i).baselineDone = false ∧
              (baselineTick s i).baselineCount = s.baselineCount + 1 := by
            rw [baselineTick, if_pos hcond, if_neg (by simpa [baselineSamples] using h30)]
            exact ⟨hdone, rfl⟩
          obtain ⟨hih1, hih2⟩ := ih (baselineTick s i) ht1 (by omega)
          rw [hrun, hih1, hih2, ht2, countQualifying_cons, if_pos hq]
          constructor
          · rw [decide_eq_decide]
            omega
          · omega
      · have hna : baselineTick s i = s := by
          rw [baselineTick, if_neg ?_]
          rintro ⟨-, hf, hb⟩
          exact hq (by simp [baselineQualifies, hf, hb])
        rw [hrun, hna, countQualifying_cons, if_neg hq, Nat.zero_add]
        exact ih s hdone hcnt

/-- C5: from power-on, the done flag after any input trace is set exactly
when the trace contains at least 30 qualifying ticks (finger detected and
pulse average > 0) — so it flips exactly once, on the 30th qualifying
tick — the stored count caps at 30, and once done every later tick leaves
the whole baseline state (all accumulators included) unchanged. -/
theorem baseline_done_once (l : List BaselineInput) (s : BaselineCal)
    (i : BaselineInput) (hdone : s.baselineDone = true) :
    (baselineRun baselineStart l).baselineDone = decide (30 ≤ countQualifying l) ∧
    (baselineRun baselineStart l).baselineCount = min 30 (countQualifying l) ∧
    baselineTick s i = s := by
  have h := baselineRun_progress l baselineStart rfl (by norm_num [baselineStart])
  rw [show baselineStart.baselineCount = 0 from rfl, Nat.zero_add] at h
  exact ⟨h.1, h.2, baselineTick_of_done s i hdone⟩

/-- C5 witness: 30 ticks with finger contact and pulse average 70 complete
the baseline, and one further tick on the completed state is a no-op. -/
theorem baseline_done_once_witness :
    (baselineRun baselineStart
        (List.replicate 30 ⟨true, 70, 36, 5⟩)).baselineDone =
      decide (30 ≤ countQualifying (List.replicate 30 ⟨true, 70, 36, 5⟩)) ∧
    decide (30 ≤ countQualifying (List.replicate 30 (⟨true, 70, 36, 5⟩ : BaselineInput))) = true ∧
    baselineTick { baselineStart with baselineDone := true } ⟨true, 70, 36, 5⟩ =
      { baselineStart with baselineDone := true } := by
  have h := baseline_done_once (List.replicate 30 ⟨true, 70, 36, 5⟩)
      { baselineStart with baselineDone := true } ⟨true, 70, 36, 5⟩ rfl
  exact ⟨h.1, by decide, h.2.2⟩

/-! ## Score aggregator

The `if (baselineDone) { stressScore = ... }` block of `loop()`.  It reads
`bpmAvg`, `bpmBaseline`, `tempC`, `tempBaseline`, the piezo classification
with its stored window maximum, and the GSR flags; these form the per-tick
input.  `stressScore` is initialized to 0 at power-on and written only
inside this block. -/

/-- Values read by the score block on one `loop()` iteration. -/
structure ScoreInput where
  bpmAvg : ℚ
  bpmBaseline : ℚ
  tempC : ℚ
  tempBaseline : ℚ
  piezoState : PiezoState
  piezoLastCurMax : ℕ
  gsrCalDone : Bool
  gsrLastPhasic : ℤ
  gsrLastScore : ℤ

/-- The score computation of `loop()` once `baselineDone` holds:
start from 0, add the guarded BPM and temperature terms (each with the C
`(int)` cast), add the piezo and GSR contributions, and `constrain` the
sum to [0,100]. -/
def stressScoreTick (i : ScoreInput) : ℤ :=
  let s0 : ℤ := 0
  let s1 := if i.bpmBaseline < i.bpmAvg
            then s0 + cTrunc ((i.bpmAvg - i.bpmBaseline) * 2) else s0
  let s2 := if i.tempC < i.tempBaseline
            then s1 + cTrunc ((i.tempBaseline - i.tempC) * 20) else s1
  let s3 := s2 + (piezoScoreContribution i.piezoState i.piezoLastCurMax : ℤ)
  let s4 := s3 + gsrScoreContribution i.gsrCalDone i.gsrLastPhasic i.gsrLastScore
  constrain s4 0 100

/-- One `loop()` iteration as seen by `stressScore`: recomputed when
`baselineDone` holds, untouched otherwise. -/
def scoreLoopTick (score : ℤ) (done : Bool) (i : ScoreInput) : ℤ :=
  if done then stressScoreTick i else score

/-- `stressScore` after a sequence of loop iterations, starting from its
power-on value 0. -/
def scoreLoopRun (l : List (Bool × ScoreInput)) : ℤ :=
  l.foldl (fun sc di => scoreLoopTick sc di.1 di.2) 0

/-- C1: every recomputed score lies in [0,100], for arbitrary channel
inputs (negative deltas included), and over any run in which the baseline
never completes the score keeps its initial value 0. -/
theorem stress_score_bounds (i : ScoreInput) (l : List (Bool × ScoreInput))
    (hl : ∀ d ∈ l, d.1 = false) :
    0 ≤ stressScoreTick i ∧ stressScoreTick i ≤ 100 ∧ scoreLoopRun l = 0 := by
  refine ⟨?_, ?_, ?_⟩
  · simp only [stressScoreTick, constrain]
    split_ifs <;> omega
  · simp only [stressScoreTick, constrain]
    split_ifs <;> omega
  · unfold scoreLoopRun
    induction l with
    | nil => rfl
    | cons d t ih =>
        have hd := hl d (List.mem_cons_self d t)
        simp only [List.foldl_cons, scoreLoopTick, hd, Bool.false_eq_true, if_false]
        exact ih fun x hx => hl x (List.mem_cons_of_mem d hx)

/-- A not-yet-stressed input: everything at its baseline, channels quiet. -/
def scoreIdleInput : ScoreInput :=
  { bpmAvg := 70, bpmBaseline := 70, tempC := 36, tempBaseline := 36,
    piezoState := PiezoState.PZ_NORMAL, piezoLastCurMax := 0,
    gsrCalDone := false, gsrLastPhasic := 0, gsrLastScore := 0 }

/-- C1 witness: a concrete input scores within [0,100], and a two-tick run
with the baseline not yet done leaves the score at 0. -/
theorem stress_score_bounds_witness :
    0 ≤ stressScoreTick scoreIdleInput ∧ stressScoreTick scoreIdleInput ≤ 100 ∧
    scoreLoopRun [(false, scoreIdleInput), (false, scoreIdleInput)] = 0 := by
  exact stress_score_bounds scoreIdleInput
    [(false, scoreIdleInput), (false, scoreIdleInput)] (by intro d hd; fin_cases hd <;> rfl)

/-- The score formula exactly as the claim words it, over the unrounded
rational channel terms: clamp to [0,100] of `2×max(0, bpmAvg − bpmBaseline)
+ 20×max(0, tempBaseline − tempC) + piezo contribution + GSR
contribution`. -/
def scoreFormulaClaim (i : ScoreInput) : ℚ :=
  min 100 (max 0 (2 * max 0 (i.bpmAvg - i.bpmBaseline)
    + 20 * max 0 (i.tempBaseline - i.tempC)
    + (piezoScoreContribution i.piezoState i.piezoLastCurMax : ℚ)
    + (gsrScoreContribution i.gsrCalDone i.gsrLastPhasic i.gsrLastScore : ℚ)))

/-- An input with a fractional BPM excess: `bpmAvg − bpmBaseline = 1/4`. -/
def scoreFractionalInput : ScoreInput :=
  { bpmAvg := 281 / 4, bpmBaseline := 70, tempC := 36, tempBaseline := 36,
    piezoState := PiezoState.PZ_NORMAL, piezoLastCurMax := 0,
    gsrCalDone := false, gsrLastPhasic := 0, gsrLastScore := 0 }

/-- C2 counterexample: with `bpmAvg = 70.25` over a baseline of 70 the code
truncates `(int)(0.25×2) = 0` and scores 0, while the claim's unrounded
formula gives `1/2`, so the stated equality fails. -/
theorem stress_score_formula_counterexample :
    stressScoreTick scoreFractionalInput = 0 ∧
    scoreFormulaClaim scoreFractionalInput = 1 / 2 ∧
    ¬ ((stressScoreTick scoreFractionalInput : ℚ) = scoreFormulaClaim scoreFractionalInput) := by
  have hpz : piezoScoreContribution PiezoState.PZ_NORMAL 0 = 0 := by decide
  have hgsr : gsrScoreContribution false 0 0 = 0 := by decide
  have h1 : stressScoreTick scoreFractionalInput = 0 := by
    norm_num [stressScoreTick, scoreFractionalInput, cTrunc, constrain, hpz, hgsr]
  have h2 : scoreFormulaClaim scoreFractionalInput = 1 / 2 := by
    norm_num [scoreFormulaClaim, scoreFractionalInput, hpz, hgsr]
  refine ⟨h1, h2, ?_⟩
  rw [h1, h2]
  norm_num

/-- The end-to-end scenario tick of the claim: baseline {70, 36.5},
`bpmAvg = 85`, `tempC = 36.0`, piezo NORMAL (with an empty finalized
window), GSR calibration not yet complete. -/
def scoreScenarioInput : ScoreInput :=
  { bpmAvg := 85, bpmBaseline := 70, tempC := 36, tempBaseline := 73 / 2,
    piezoState := PiezoState.PZ_NORMAL, piezoLastCurMax := 0,
    gsrCalDone := false, gsrLastPhasic := 0, gsrLastScore := 0 }

/-- C2 (amended): each tick after the baseline is done the score equals the
clamp to [0,100] of `(int)(2×max(0, bpmAvg − bpmBaseline)) +
(int)(20×max(0, tempBaseline − tempC)) + piezo contribution + GSR
contribution` — the two vital-sign terms are truncated to integers before
summing — and the scenario tick (baseline {70, 36.5}, `bpmAvg = 85`,
`tempC = 36.0`, piezo NORMAL with empty window, GSR pre-calibration)
scores exactly 40. -/
theorem stress_score_formula (i : ScoreInput) :
    stressScoreTick i =
      min 100 (max 0 (cTrunc (2 * max 0 (i.bpmAvg - i.bpmBaseline))
        + cTrunc (20 * max 0 (i.tempBaseline - i.tempC))
        + (piezoScoreContribution i.piezoState i.piezoLastCurMax : ℤ)
        + gsrScoreContribution i.gsrCalDone i.gsrLastPhasic i.gsrLastScore)) ∧
    stressScoreTick scoreScenarioInput = 40 := by
  constructor
  · have hbpm : cTrunc (2 * max 0 (i.bpmAvg - i.bpmBaseline)) =
        if i.bpmBaseline < i.bpmAvg then cTrunc ((i.bpmAvg - i.bpmBaseline) * 2) else 0 := by
      split_ifs with hb
      · rw [max_eq_right (by linarith), mul_comm]
      · rw [max_eq_left (by linarith), mul_zero]
        norm_num [cTrunc]
    have htemp : cTrunc (20 * max 0 (i.tempBaseline - i.tempC)) =
        if i.tempC < i.tempBaseline then cTrunc ((i.tempBaseline - i.tempC) * 20) else 0 := by
      split_ifs with hb
      · rw [max_eq_right (by linarith), mul_comm]
      · rw [max_eq_left (by linarith), mul_zero]
        norm_num [cTrunc]
    rw [hbpm, htemp]
    simp only [stressScoreTick, constrain]
    split_ifs <;> omega
  · have hpz : piezoScoreContribution PiezoState.PZ_NORMAL 0 = 0 := by decide
    have hgsr : gsrScoreContribution false 0 0 = 0 := by decide
    norm_num [stressScoreTick, scoreScenarioInput, cTrunc, constrain, hpz, hgsr]

end StressDetector
